import Mathlib

/-!
Verification development for the `i2c` MPSSE bit-bang I2C master tool
(`i2c.c`).  The program drives an FTDI chip's MPSSE engine: it queues
opcode bytes into a command buffer (`append`), flushes them to the
transport (`execute` / `FT_Write`), and reads response bytes back
(`FT_Read`).  We embed the byte streams the program queues and the
transaction state machine as pure Lean functions and prove the spec's
claims about them.

Transport responses are modelled abstractly: each `i2c_send_bk` call
ends with a 1-byte read whose outcome is an `Option Nat` (`none` for an
FT_Read failure or a zero-length read, `some b` for a successfully read
response byte `b`); the bulk read inside `read_bytes` is modelled by a
`Bool` saying whether that `FT_Read` succeeded.
-/

/-! ### Pin assignments and MPSSE opcode constants (i2c.c lines 73-89) -/

def SCL : Nat := 1 <<< 0
def SDA_OUT : Nat := 1 <<< 1
def SDA_IN : Nat := 1 <<< 2

def MSB_FALLING_EDGE_CLOCK_BYTE_OUT : Nat := 0x11
def MSB_FALLING_EDGE_CLOCK_BIT_OUT : Nat := 0x13
def MSB_FALLING_EDGE_CLOCK_BYTE_IN : Nat := 0x20
def MSB_RISING_EDGE_CLOCK_BIT_IN : Nat := 0x22
def SET_BITS_LOW_BYTE : Nat := 0x80
def SEND_IMMEDIATE : Nat := 0x87
def DISABLE_LOOPBACK : Nat := 0x85
def SET_CLK_DIV : Nat := 0x86
def DISABLE_CLK_DIV_5 : Nat := 0x8A
def ENABLE_3_PHASE_CLK : Nat := 0x8C
def DISABLE_ADAPTIVE_CLK : Nat := 0x97
def OPEN_DRAIN : Nat := 0x9E

/-! ### Address encoding (i2c.c lines 44-45, 573-577) -/

/-- `READ(addr)  (((addr)<<1) | 0x01)` -/
def READ (addr : Nat) : Nat := (addr <<< 1) ||| 0x01

/-- `WRITE(addr) (((addr)<<1) | 0x00)` -/
def WRITE (addr : Nat) : Nat := (addr <<< 1) ||| 0x00

/-- The `-a` option handler: `slave_addr = (unsigned char)strtoul(...);
slave_addr &= 0x7F;`.  The cast to `unsigned char` truncates modulo 256,
then the top bit is masked off. -/
def parse_slave_addr (v : Nat) : Nat := (v % 256) &&& 0x7F

/-! ### Transaction result codes (i2c.c lines 47-48) -/

def SLAVE_NAK_ADDR : Int := -2
def SLAVE_NAK_DATA : Int := -3

/-! ### `set_bits` (i2c.c lines 163-181): queue a SET_BITS_LOW_BYTE
command with the given level bits; direction is always `SDA_OUT|SCL`. -/

def set_bits_cmds (data : Nat) : List Nat :=
  [SET_BITS_LOW_BYTE, data, SDA_OUT ||| SCL]

/-! ### `i2c_send_bk` (i2c.c lines 222-261) -/

/-- The command bytes `i2c_send_bk(data)` queues before executing:
clock the data byte out MSB-first on the falling edge, release SDA
(`set_bits(SDA_OUT)`), clock one acknowledge bit in on the rising edge,
then `SEND_IMMEDIATE`. -/
def i2c_send_bk_cmds (data : Nat) : List Nat :=
  [MSB_FALLING_EDGE_CLOCK_BYTE_OUT, 0x00, 0x00, data]
  ++ set_bits_cmds SDA_OUT
  ++ [MSB_RISING_EDGE_CLOCK_BIT_IN, 0x00]
  ++ [SEND_IMMEDIATE]

/-- The return value of `i2c_send_bk`, as a function of the 1-byte
acknowledge read: `none` (FT_Read failed or read 0 bytes) gives `-2`;
a response byte with the low bit set gives `-1` (NAK); otherwise `0`. -/
def i2c_send_bk_result (resp : Option Nat) : Int :=
  match resp with
  | none => -2
  | some b => if b &&& 0x01 ≠ 0 then -1 else 0

/-- The command bytes `i2c_send_bk` queues and executes after the
acknowledge read, as a function of that read: only on the success path
does it re-assert SDA output-high (`set_bits(SDA_OUT)` then `execute`). -/
def i2c_send_bk_post_cmds (resp : Option Nat) : List Nat :=
  match resp with
  | none => []
  | some b => if b &&& 0x01 ≠ 0 then [] else set_bits_cmds SDA_OUT

/-! ### `read_bytes` (i2c.c lines 264-299) -/

/-- The acknowledge bit byte queued for byte index `i` of an
`nbytes`-byte read: `if (i == (nbytes-1)) append(0x80); else append(0x00);`. -/
def read_ack_byte (i nbytes : Nat) : Nat :=
  if i = nbytes - 1 then 0x80 else 0x00

/-- The command group queued for byte index `i` of an `nbytes`-byte
read: clock one byte in on the falling edge, then clock one
acknowledge bit out on the falling edge carrying `read_ack_byte i nbytes`. -/
def read_byte_group (i nbytes : Nat) : List Nat :=
  [MSB_FALLING_EDGE_CLOCK_BYTE_IN, 0x00, 0x00,
   MSB_FALLING_EDGE_CLOCK_BIT_OUT, 0x00, read_ack_byte i nbytes]

/-- The full command stream `read_bytes(nbytes)` queues (for
`nbytes ≥ 1`): one group per byte, then `SEND_IMMEDIATE`. -/
def read_bytes_cmds (nbytes : Nat) : List Nat :=
  ((List.range nbytes).map (fun i => read_byte_group i nbytes)).flatten
  ++ [SEND_IMMEDIATE]

/-- The return value of `read_bytes(nbytes)`: `-1` when `nbytes <= 0`
(here: `= 0`); otherwise `0` — the status of the final `FT_Read`
(modelled by `bulkReadOk`) is stored into the global `ftStatus` but
never checked, so the result does not depend on it. -/
def read_bytes_result (nbytes : Nat) (bulkReadOk : Bool) : Int :=
  if nbytes = 0 then -1 else 0

/-! ### `ftdi_configure_i2c` (i2c.c lines 312-411) -/

/-- Divisor selection (lines 317-322): 400 kHz gives `0x004A`, any
other requested speed falls into the `else` branch, `0x012B`. -/
def clock_divisor (speed_khz : Int) : Nat :=
  if speed_khz = 400 then 0x004A else 0x012B

/-- Lines 392-394: the SET_CLK_DIV opcode followed by the divisor,
low byte first then high byte. -/
def set_clk_div_cmds (d : Nat) : List Nat :=
  [SET_CLK_DIV, d &&& 0xFF, (d >>> 8) &&& 0xFF]

/-- Every command byte `ftdi_configure_i2c` queues after enabling MPSSE
mode, in order (lines 369-408): the first batch appends
`DISABLE_CLK_DIV_5` twice (the second append, line 374, sits under the
comment "Disable adaptive clocking") and `ENABLE_3_PHASE_CLK`; then pin
values/directions and the clock divisor; then open-drain enable; then
loopback disable. -/
def ftdi_configure_cmds (speed_khz : Int) : List Nat :=
  [DISABLE_CLK_DIV_5, DISABLE_CLK_DIV_5, ENABLE_3_PHASE_CLK]
  ++ ([SET_BITS_LOW_BYTE, SDA_OUT ||| SCL, SDA_OUT ||| SCL]
      ++ set_clk_div_cmds (clock_divisor speed_khz))
  ++ [OPEN_DRAIN, SDA_OUT ||| SCL, 0x00]
  ++ [DISABLE_LOOPBACK]

/-! ### Bus-level events

`i2c_transaction` and the scan loop sequence calls to `i2c_start_bk`,
`i2c_send_bk`, `read_bytes` and `i2c_stop_bk`; we record those calls as
an event trace. -/

inductive Event where
  | start : Event
  | sendByte (b : Nat) : Event
  | readData (n : Nat) : Event
  | stop : Event
deriving DecidableEq

def is_start (e : Event) : Bool :=
  match e with
  | .start => true
  | _ => false

def is_stop (e : Event) : Bool :=
  match e with
  | .stop => true
  | _ => false

def is_readData (e : Event) : Bool :=
  match e with
  | .readData _ => true
  | _ => false

def count_starts (t : List Event) : Nat := t.countP is_start
def count_stops (t : List Event) : Nat := t.countP is_stop

/-! ### `i2c_transaction` (i2c.c lines 414-493)

The send oracle `oracle : Nat → Option Nat` gives the acknowledge-read
outcome of the k-th `i2c_send_bk` call of the transaction (counting
from 0); `bulkReadOk` is the outcome of the `FT_Read` inside
`read_bytes`. -/

/-- The bytes the payload loop sends: `for(i=0; i<nwrite; i++) ... wbuf[i]`. -/
def payload_bytes (nwrite : Nat) (wbuf : List Nat) : List Nat :=
  (List.range nwrite).map (fun i => wbuf.getD i 0)

/-- The payload-write loop (lines 440-453), sending each byte in turn
starting at oracle index `k`.  Returns the send events, the next oracle
index, and whether every byte was acknowledged; it stops at the first
send whose result is nonzero. -/
def send_data_loop (oracle : Nat → Option Nat) : Nat → List Nat → List Event × Nat × Bool
  | k, [] => ([], k, true)
  | k, b :: rest =>
    if i2c_send_bk_result (oracle k) = 0 then
      let r := send_data_loop oracle (k + 1) rest
      (Event.sendByte b :: r.1, r.2.1, r.2.2)
    else
      ([Event.sendByte b], k + 1, false)

/-- The read phase and final stop (lines 455-492): if `nread` is
nonzero, Start, send the READ address (Nak: Stop and `SLAVE_NAK_ADDR`),
call `read_bytes nread` discarding its result, then Stop; otherwise
Stop only when the write phase ran (`if(nread || nwrite)`). -/
def read_phase (oracle : Nat → Option Nat) (bulkReadOk : Bool) (k : Nat)
    (slave_addr nread : Nat) (pre : List Event) (didWrite : Bool) :
    List Event × Int :=
  if nread ≠ 0 then
    if i2c_send_bk_result (oracle k) ≠ 0 then
      (pre ++ [Event.start, Event.sendByte (READ slave_addr), Event.stop],
       SLAVE_NAK_ADDR)
    else
      let _rb := read_bytes_result nread bulkReadOk
      (pre ++ [Event.start, Event.sendByte (READ slave_addr),
               Event.readData nread, Event.stop], 0)
  else if didWrite then (pre ++ [Event.stop], 0) else (pre, 0)

/-- `i2c_transaction(slave_addr, nread, nwrite, wbuf)`: the event trace
and the return value.  Write phase (lines 418-454): Start, send the
WRITE address (Nak: Stop and `SLAVE_NAK_ADDR`), then the payload loop
(first Nak: Stop and `SLAVE_NAK_DATA`); then the read phase. -/
def i2c_transaction (oracle : Nat → Option Nat) (bulkReadOk : Bool)
    (slave_addr nread nwrite : Nat) (wbuf : List Nat) : List Event × Int :=
  if nwrite ≠ 0 then
    if i2c_send_bk_result (oracle 0) ≠ 0 then
      ([Event.start, Event.sendByte (WRITE slave_addr), Event.stop],
       SLAVE_NAK_ADDR)
    else
      let r := send_data_loop oracle 1 (payload_bytes nwrite wbuf)
      if r.2.2 = false then
        (([Event.start, Event.sendByte (WRITE slave_addr)] ++ r.1)
          ++ [Event.stop], SLAVE_NAK_DATA)
      else
        read_phase oracle bulkReadOk r.2.1 slave_addr nread
          ([Event.start, Event.sendByte (WRITE slave_addr)] ++ r.1) true
  else
    read_phase oracle bulkReadOk 0 slave_addr nread [] false

/-! ### The I2C bus scan (i2c.c lines 659-675) -/

/-- One probe of the scan loop body: Start, send `READ(i)`, Stop.
No data phase. -/
def i2c_scan_probe (i : Nat) : List Event :=
  [Event.start, Event.sendByte (READ i), Event.stop]

/-- The event trace of the whole scan: `for(i=0; i<0x7f; i++)`. -/
def i2c_scan_trace : List Event :=
  ((List.range 0x7f).map i2c_scan_probe).flatten

/-- The addresses the scan reports as acknowledged, given the oracle of
acknowledge-read outcomes (the i-th probe's send consumes response i). -/
def i2c_scan_acked (oracle : Nat → Option Nat) : List Nat :=
  (List.range 0x7f).filter (fun i => i2c_send_bk_result (oracle i) == 0)

/-! ### Helper lemmas -/

lemma shiftLeft_one_eq (a : Nat) : a <<< 1 = 2 * a := by
  rw [Nat.shiftLeft_eq]; ring

lemma two_mul_lor_one (a : Nat) : (2 * a) ||| 1 = 2 * a + 1 := by
  have h := Nat.lor_bit false a true 0
  simpa [Nat.bit_val] using h

lemma READ_eq (a : Nat) : READ a = 2 * a + 1 := by
  rw [READ, shiftLeft_one_eq]
  exact two_mul_lor_one a

lemma WRITE_eq (a : Nat) : WRITE a = 2 * a := by
  rw [WRITE, shiftLeft_one_eq]
  simp

lemma infix_flatten_append {α : Type} {l : List α} {L : List (List α)}
    (M : List α) (h : l ∈ L) : l <:+: L.flatten ++ M :=
  (List.infix_of_mem_flatten h).trans ⟨[], M, by simp⟩

lemma send_data_loop_all_ack (oracle : Nat → Option Nat)
    (hack : ∀ k, i2c_send_bk_result (oracle k) = 0) :
    ∀ (bs : List Nat) (k : Nat),
      send_data_loop oracle k bs = (bs.map Event.sendByte, k + bs.length, true) := by
  intro bs
  induction bs with
  | nil => intro k; simp [send_data_loop]
  | cons b rest ih =>
    intro k
    simp only [send_data_loop, hack k, if_pos rfl, ih (k + 1), List.map_cons,
      List.length_cons]
    have h : k + 1 + rest.length = k + (rest.length + 1) := by omega
    rw [h]
    simp

/-! ### Claim theorems -/

/-- Claim C1 (code bug): the spec says the configurator emits the
DISABLE_ADAPTIVE_CLOCK opcode byte 0x97 during setup, and the source's
own comment at the second append says "Disable adaptive clocking" — but
the code appends `DISABLE_CLK_DIV_5` (0x8A) there a second time, so the
configuration command stream never contains 0x97, for any requested
speed.  The divide-by-5 disable and the 3-phase clocking enable are
emitted as claimed. -/
theorem c1_adaptive_clock_opcode_never_emitted : ∀ s : Int,
    DISABLE_ADAPTIVE_CLK ∉ ftdi_configure_cmds s ∧
    (ftdi_configure_cmds s).count DISABLE_CLK_DIV_5 = 2 ∧
    ENABLE_3_PHASE_CLK ∈ ftdi_configure_cmds s ∧
    DISABLE_ADAPTIVE_CLK = 0x97 := by
  intro s
  by_cases h : s = 400 <;>
    simp only [ftdi_configure_cmds, clock_divisor, h, if_pos, if_neg,
      if_true, if_false, reduceIte] <;> decide

/-- Claim C2 (code bug): a read transaction whose bulk `FT_Read` inside
`read_bytes` fails is still reported as success: with the address
acknowledged, `nread = 1`, `nwrite = 0` and the bulk read failing, the
transaction returns 0 — `read_bytes` itself returns 0 regardless of the
transport status — instead of a distinct I/O error. -/
theorem c2_bulk_read_failure_reported_as_success :
    (i2c_transaction (fun _ => some 0) false 0x3C 1 0 []).2 = 0 ∧
    (i2c_transaction (fun _ => some 0) false 0x3C 1 0 []).1
      = [Event.start, Event.sendByte (READ 0x3C), Event.readData 1, Event.stop] ∧
    read_bytes_result 1 false = 0 ∧
    (0 : Int) ≠ SLAVE_NAK_ADDR ∧ (0 : Int) ≠ SLAVE_NAK_DATA := by
  decide

/-- Claim C10: a transaction request with `nwrite = 0` and `nread = 0`
performs no bus activity at all — the event trace is empty — and
returns the success code 0. -/
theorem c10_empty_request_no_bus_activity (oracle : Nat → Option Nat)
    (bulkReadOk : Bool) (slave_addr : Nat) (wbuf : List Nat) :
    i2c_transaction oracle bulkReadOk slave_addr 0 0 wbuf = ([], 0) := by
  simp [i2c_transaction, read_phase]

/-- Claim C8: for every 7-bit address `a`, the READ-direction encoding
is `(a<<1)|1 = 2a+1` and the WRITE-direction encoding is `(a<<1) = 2a`,
and an address supplied from outside is truncated to `unsigned char`
and masked with 0x7F, i.e. reduced mod 0x80, before these encodings are
applied. -/
theorem c8_address_encoding (a v : Nat) (ha : a ≤ 0x7F) :
    READ a = 2 * a + 1 ∧
    WRITE a = 2 * a ∧
    parse_slave_addr v = v % 0x80 ∧
    parse_slave_addr v ≤ 0x7F ∧
    READ (parse_slave_addr v) = 2 * (v % 0x80) + 1 ∧
    WRITE (parse_slave_addr v) = 2 * (v % 0x80) := by
  have hp : parse_slave_addr v = v % 0x80 := by
    rw [parse_slave_addr]
    have h := Nat.and_pow_two_sub_one_eq_mod (v % 256) 7
    norm_num at h
    exact h
  refine ⟨READ_eq a, WRITE_eq a, hp, ?_, ?_, ?_⟩
  · rw [hp]; omega
  · rw [hp, READ_eq]
  · rw [hp, WRITE_eq]

theorem c8_address_encoding_witness :
    0x3C ≤ 0x7F ∧
    (READ 0x3C = 2 * 0x3C + 1 ∧
     WRITE 0x3C = 2 * 0x3C ∧
     parse_slave_addr 0xBC = 0xBC % 0x80 ∧
     parse_slave_addr 0xBC ≤ 0x7F ∧
     READ (parse_slave_addr 0xBC) = 2 * (0xBC % 0x80) + 1 ∧
     WRITE (parse_slave_addr 0xBC) = 2 * (0xBC % 0x80)) :=
  ⟨by decide, c8_address_encoding 0x3C 0xBC (by decide)⟩

/-- Claim C9: the speed-to-divisor mapping is total and exact — 100 kHz
gives 0x012B, 400 kHz gives 0x004A, and every other requested speed is
deterministically defaulted to the 100 kHz divisor 0x012B — and the
chosen 16-bit divisor is emitted low byte first (little-endian) right
after the SET_CLK_DIV opcode, inside the configuration command
stream. -/
theorem c9_clock_profile (s : Int) (hs : s ≠ 400) :
    clock_divisor 100 = 0x012B ∧
    clock_divisor 400 = 0x004A ∧
    clock_divisor s = 0x012B ∧
    set_clk_div_cmds (clock_divisor 100) = [SET_CLK_DIV, 0x2B, 0x01] ∧
    set_clk_div_cmds (clock_divisor 400) = [SET_CLK_DIV, 0x4A, 0x00] ∧
    set_clk_div_cmds (clock_divisor s) <:+: ftdi_configure_cmds s := by
  refine ⟨by decide, by decide, by simp [clock_divisor, hs], by decide, by decide, ?_⟩
  exact ⟨[DISABLE_CLK_DIV_5, DISABLE_CLK_DIV_5, ENABLE_3_PHASE_CLK,
          SET_BITS_LOW_BYTE, SDA_OUT ||| SCL, SDA_OUT ||| SCL],
         [OPEN_DRAIN, SDA_OUT ||| SCL, 0x00] ++ [DISABLE_LOOPBACK],
         by simp [ftdi_configure_cmds]⟩

theorem c9_clock_profile_witness :
    (200 : Int) ≠ 400 ∧
    (clock_divisor 100 = 0x012B ∧
     clock_divisor 400 = 0x004A ∧
     clock_divisor 200 = 0x012B ∧
     set_clk_div_cmds (clock_divisor 100) = [SET_CLK_DIV, 0x2B, 0x01] ∧
     set_clk_div_cmds (clock_divisor 400) = [SET_CLK_DIV, 0x4A, 0x00] ∧
     set_clk_div_cmds (clock_divisor 200) <:+: ftdi_configure_cmds 200) :=
  ⟨by decide, c9_clock_profile 200 (by decide)⟩

/-- Claim C7: `i2c_send_bk` maps its single acknowledge read to three
pairwise distinct return values — a transport failure or zero-length
read gives the I/O error -2; a response byte with the low bit set gives
the Nak value -1; any other response gives the Ack value 0 — and only
in the Ack case does it queue the `set_bits(SDA_OUT)` command
re-asserting SDA as output-high before returning. -/
theorem c7_send_byte_outcomes (bn ba : Nat)
    (hn : bn &&& 0x01 ≠ 0) (ha : ba &&& 0x01 = 0) :
    i2c_send_bk_result none = -2 ∧
    i2c_send_bk_post_cmds none = [] ∧
    i2c_send_bk_result (some bn) = -1 ∧
    i2c_send_bk_post_cmds (some bn) = [] ∧
    i2c_send_bk_result (some ba) = 0 ∧
    i2c_send_bk_post_cmds (some ba) = set_bits_cmds SDA_OUT ∧
    ((-2 : Int) ≠ -1 ∧ (-2 : Int) ≠ 0 ∧ (-1 : Int) ≠ 0) := by
  have hn2 : bn % 2 = 1 := by rw [Nat.and_one_is_mod] at hn; omega
  have ha2 : ba % 2 = 0 := by rw [Nat.and_one_is_mod] at ha; exact ha
  refine ⟨rfl, rfl, ?_, ?_, ?_, ?_, by decide⟩ <;>
    simp [i2c_send_bk_result, i2c_send_bk_post_cmds, Nat.and_one_is_mod, hn2, ha2]

theorem c7_send_byte_outcomes_witness :
    (1 &&& 0x01 ≠ 0 ∧ 0 &&& 0x01 = 0) ∧
    (i2c_send_bk_result none = -2 ∧
     i2c_send_bk_post_cmds none = [] ∧
     i2c_send_bk_result (some 1) = -1 ∧
     i2c_send_bk_post_cmds (some 1) = [] ∧
     i2c_send_bk_result (some 0) = 0 ∧
     i2c_send_bk_post_cmds (some 0) = set_bits_cmds SDA_OUT ∧
     ((-2 : Int) ≠ -1 ∧ (-2 : Int) ≠ 0 ∧ (-1 : Int) ≠ 0)) :=
  ⟨by decide, c7_send_byte_outcomes 1 0 (by decide) (by decide)⟩

/-- Claim C6: in `read_bytes(n)` with `n ≥ 1`, the master-driven
acknowledge byte queued for byte index `i` (the last byte of the i-th
command group, which follows the clock-1-bit-out opcode) is 0x00 (Ack)
for every `i < n-1` and 0x80 (Nak, MSB-first encoding of bit 1) for
`i = n-1`; for `n = 1` the single byte's acknowledge bit is Nak.  Each
group occurs inside the full queued command stream. -/
theorem c6_read_ack_bits (nbytes i : Nat) (h1 : 1 ≤ nbytes) (h2 : i < nbytes) :
    (read_byte_group i nbytes).getD 5 0 = read_ack_byte i nbytes ∧
    (i < nbytes - 1 → read_ack_byte i nbytes = 0x00) ∧
    (i = nbytes - 1 → read_ack_byte i nbytes = 0x80) ∧
    read_ack_byte 0 1 = 0x80 ∧
    read_byte_group i nbytes <:+: read_bytes_cmds nbytes := by
  refine ⟨rfl, ?_, ?_, by decide, ?_⟩
  · intro h
    rw [read_ack_byte, if_neg (by omega)]
  · intro h
    rw [read_ack_byte, if_pos h]
  · exact infix_flatten_append [SEND_IMMEDIATE]
      (List.mem_map_of_mem _ (List.mem_range.mpr h2))

theorem c6_read_ack_bits_witness :
    (1 ≤ 2 ∧ (1 : Nat) < 2) ∧
    ((read_byte_group 1 2).getD 5 0 = read_ack_byte 1 2 ∧
     ((1 : Nat) < 2 - 1 → read_ack_byte 1 2 = 0x00) ∧
     ((1 : Nat) = 2 - 1 → read_ack_byte 1 2 = 0x80) ∧
     read_ack_byte 0 1 = 0x80 ∧
     read_byte_group 1 2 <:+: read_bytes_cmds 2) :=
  ⟨by decide, c6_read_ack_bits 2 1 (by decide) (by decide)⟩

set_option maxRecDepth 16384

/-- Claim C3 counterexample: the scan loop is `for(i=0; i<0x7f; i++)`,
so address 0x7F is never probed — the trace contains no send of
`READ(0x7F)` (while 0x7E is probed), and 0x7F is not reported even by
an oracle that acknowledges every probe. -/
theorem c3_counterexample_7F_not_probed :
    Event.sendByte (READ 0x7F) ∉ i2c_scan_trace ∧
    Event.sendByte (READ 0x7E) ∈ i2c_scan_trace ∧
    0x7F ∉ i2c_scan_acked (fun _ => some 0) ∧
    0x7E ∈ i2c_scan_acked (fun _ => some 0) := by
  decide

/-- Claim C3 as amended: the bus-presence scan probes every candidate
address from 0x00 through 0x7E inclusive (not 0x7F); each probe is a
Start, the READ-direction address byte, and a Stop, consecutively; the
trace contains no data phase (no `readData` event); and an address is
in the reported set iff it is below 0x7F and its probe's acknowledge
read came back Ack. -/
theorem c3_scan_probes_00_to_7E (oracle : Nat → Option Nat) (a : Nat)
    (ha : a < 0x7F) :
    i2c_scan_probe a <:+: i2c_scan_trace ∧
    (a ∈ i2c_scan_acked oracle ↔ i2c_send_bk_result (oracle a) = 0) ∧
    i2c_scan_trace.countP is_readData = 0 := by
  refine ⟨?_, ?_, by decide⟩
  · exact (List.infix_of_mem_flatten
      (List.mem_map_of_mem _ (List.mem_range.mpr ha)))
  · simp [i2c_scan_acked, List.mem_filter, List.mem_range, ha]

theorem c3_scan_probes_00_to_7E_witness :
    0x3C < 0x7F ∧
    (i2c_scan_probe 0x3C <:+: i2c_scan_trace ∧
     (0x3C ∈ i2c_scan_acked (fun _ => some 0) ↔
       i2c_send_bk_result ((fun _ => some 0) 0x3C) = 0) ∧
     i2c_scan_trace.countP is_readData = 0) :=
  ⟨by decide, c3_scan_probes_00_to_7E (fun _ => some 0) 0x3C (by decide)⟩

/-- Claim C5: in a write-only transaction (`nread = 0`) where the slave
Naks the address byte (the acknowledge read returns a byte with the low
bit set), the engine sends no payload data byte at all — the trace is
exactly Start, the WRITE-direction address byte, Stop — and the
transaction returns `SLAVE_NAK_ADDR`. -/
theorem c5_write_addr_nak_stops_without_payload (oracle : Nat → Option Nat)
    (bulkReadOk : Bool) (slave_addr nwrite : Nat) (wbuf : List Nat) (b : Nat)
    (hw : nwrite ≠ 0) (h0 : oracle 0 = some b) (hnak : b &&& 0x01 ≠ 0) :
    i2c_transaction oracle bulkReadOk slave_addr 0 nwrite wbuf
      = ([Event.start, Event.sendByte (WRITE slave_addr), Event.stop],
         SLAVE_NAK_ADDR) := by
  have hb : b % 2 = 1 := by rw [Nat.and_one_is_mod] at hnak; omega
  have hr : i2c_send_bk_result (oracle 0) = -1 := by
    rw [h0]
    simp [i2c_send_bk_result, Nat.and_one_is_mod, hb]
  rw [i2c_transaction, if_pos hw, if_pos (by rw [hr]; decide)]

theorem c5_write_addr_nak_stops_without_payload_witness :
    ((2 : Nat) ≠ 0 ∧ (fun _ : Nat => some 1) 0 = some 1 ∧ 1 &&& 0x01 ≠ 0) ∧
    i2c_transaction (fun _ => some 1) true 0x3C 0 2 [0x12, 0x34]
      = ([Event.start, Event.sendByte (WRITE 0x3C), Event.stop],
         SLAVE_NAK_ADDR) :=
  ⟨by exact ⟨by decide, rfl, by decide⟩,
   c5_write_addr_nak_stops_without_payload (fun _ => some 1) true 0x3C 2
     [0x12, 0x34] 1 (by decide) rfl (by decide)⟩

/-- Claim C4: a write-then-read request (`nwrite ≠ 0` and `nread ≠ 0`)
on the all-Ack path performs exactly two Start conditions (the initial
one and the repeated one before the read phase) and exactly one Stop
condition, whatever the payload length and contents. -/
theorem c4_write_then_read_two_starts_one_stop (oracle : Nat → Option Nat)
    (bulkReadOk : Bool) (slave_addr nread nwrite : Nat) (wbuf : List Nat)
    (hw : nwrite ≠ 0) (hr : nread ≠ 0)
    (hack : ∀ k, i2c_send_bk_result (oracle k) = 0) :
    count_starts (i2c_transaction oracle bulkReadOk slave_addr nread nwrite wbuf).1 = 2 ∧
    count_stops (i2c_transaction oracle bulkReadOk slave_addr nread nwrite wbuf).1 = 1 := by
  have htr : (i2c_transaction oracle bulkReadOk slave_addr nread nwrite wbuf).1
      = [Event.start, Event.sendByte (WRITE slave_addr)]
        ++ (payload_bytes nwrite wbuf).map Event.sendByte
        ++ [Event.start, Event.sendByte (READ slave_addr),
            Event.readData nread, Event.stop] := by
    rw [i2c_transaction, if_pos hw, if_neg (by rw [hack 0]; decide),
      send_data_loop_all_ack oracle hack]
    simp [read_phase, hr, hack]
  rw [count_starts, count_stops, htr]
  simp [List.countP_append, List.countP_map, Function.comp_def, is_start, is_stop]

theorem c4_write_then_read_two_starts_one_stop_witness :
    ((1 : Nat) ≠ 0 ∧ (2 : Nat) ≠ 0) ∧
    count_starts (i2c_transaction (fun _ => some 0) true 0x3C 2 1 [0x12]).1 = 2 ∧
    count_stops (i2c_transaction (fun _ => some 0) true 0x3C 2 1 [0x12]).1 = 1 :=
  ⟨by decide,
   c4_write_then_read_two_starts_one_stop (fun _ => some 0) true 0x3C 2 1
     [0x12] (by decide) (by decide) (fun _ => rfl)⟩
